import Mathlib

/-!
Shallow embedding of the Aryzen finance assistant backend, from the two
backend source files `src/bot.py` and `src/app.py` (near-duplicate revisions
of the same program).

Modelling conventions:
* Python strings are Lean `String`s; the Python primitives the code uses
  (`lower`, `strip`, substring `in`, `split(". ")`, `join`, `rstrip(".")`,
  `replace("\n\n\n", "\n\n")`) are implemented on the underlying character
  lists so that everything is structurally recursive and kernel-evaluable.
* The external effects (the sentence-transformer embedder, the Chroma
  collection query, and the HTTP POST to the completion endpoint) are
  modelled by an explicit environment `ChatEnv` holding the outcome of each
  call; a Python exception is an `Except.error` carrying a `PyErr`.
* `chatbot` and `get_context` return, besides their `Except` result, a
  `Trace` counting how many embedding calls, index queries and completion
  POSTs were performed, so that "no retrieval / no external call" claims are
  statable.
* Embedding vectors are never inspected by the code paths under study, so
  their entries are modelled as integers (`EmbVec`).
* JSON values (the parsed completion-endpoint response body) are modelled by
  the inductive `JVal`; subscripting, the `in` operator, `json.dumps(-,
  indent=2)` and `str()` are modelled for the value shapes JSON parsing can
  produce.
-/

/-- Python `str.strip()` on a character list: drop whitespace at both ends. -/
def stripChars (l : List Char) : List Char :=
  ((l.dropWhile Char.isWhitespace).reverse.dropWhile Char.isWhitespace).reverse

/-- Python `s.strip()`. -/
def pyStrip (s : String) : String := String.mk (stripChars s.data)

/-- Python `s.lower()` (character-wise, adequate for the ASCII term lists). -/
def pyLower (s : String) : String := String.mk (s.data.map Char.toLower)

/-- Boolean prefix test on character lists. -/
def isPreOf : List Char → List Char → Bool
  | [], _ => true
  | _ :: _, [] => false
  | a :: l₁, b :: l₂ => a == b && isPreOf l₁ l₂

/-- Boolean substring (contiguous sublist) test on character lists. -/
def isSubOf (pat : List Char) : List Char → Bool
  | [] => pat.isEmpty
  | c :: rest => isPreOf pat (c :: rest) || isSubOf pat rest

/-- Python `needle in hay` (substring containment). -/
def pyIn (needle hay : String) : Bool := isSubOf needle.data hay.data

/-- Python `s.rstrip(".")`: remove every trailing period character. -/
def rstripDots (s : String) : String :=
  String.mk ((s.data.reverse.dropWhile (fun c => c == '.')).reverse)

/-- Helper for `splitDotSp`: prepend a character to the first piece. -/
def consHead (c : Char) : List (List Char) → List (List Char)
  | [] => [[c]]
  | l :: ls => (c :: l) :: ls

/-- Python `text.split(". ")`: split on each leftmost, non-overlapping
occurrence of the two-character separator `". "`. -/
def splitDotSp : List Char → List (List Char)
  | '.' :: ' ' :: rest => [] :: splitDotSp rest
  | c :: rest => consHead c (splitDotSp rest)
  | [] => [[]]

/-- Python `". ".join(xs)`. -/
def joinDotSp : List String → String
  | [] => ""
  | [s] => s
  | s :: rest => s ++ ". " ++ joinDotSp rest

/-- Python `"\n\n".join(xs)`. -/
def joinTwoNl : List String → String
  | [] => ""
  | [s] => s
  | s :: rest => s ++ "\n\n" ++ joinTwoNl rest

/-- One pass of Python `text.replace("\n\n\n", "\n\n")`: replace each
leftmost, non-overlapping occurrence of three newlines by two. -/
def replAll : List Char → List Char
  | [] => []
  | [c] => [c]
  | [c1, c2] => [c1, c2]
  | c1 :: c2 :: c3 :: rest =>
    if c1 = '\n' ∧ c2 = '\n' ∧ c3 = '\n' then '\n' :: '\n' :: replAll rest
    else c1 :: replAll (c2 :: c3 :: rest)

/-- The loop condition `"\n\n\n" in text` of `format_response`. -/
def hasTriple (l : List Char) : Bool := isSubOf ['\n', '\n', '\n'] l

/-- The `while "\n\n\n" in text: text = text.replace("\n\n\n", "\n\n")` loop
of `format_response`, supplied with fuel; every executed pass strictly
shortens the text, so `l.length` fuel always reaches the fixpoint. -/
def collapseAux : Nat → List Char → List Char
  | 0, t => t
  | n + 1, t => if hasTriple t then collapseAux n (replAll t) else t

/-- The blank-line-collapsing loop of `format_response` run to completion. -/
def collapseNl (l : List Char) : List Char := collapseAux l.length l

def collapseBlank (s : String) : String := String.mk (collapseNl s.data)

/-- Specification-side normal form: whenever three consecutive newlines
occur, drop one; so every run of three or more newlines ends up as exactly
two, and everything else is untouched. -/
def capNl : List Char → List Char
  | [] => []
  | c :: rest =>
    if c = '\n' ∧ rest.head? = some '\n' ∧ rest.tail.head? = some '\n' then capNl rest
    else c :: capNl rest

/-- The `("###" in text) or ("\n- " in text) or ("\n* " in text)` markdown
marker check of `format_response`. -/
def markersPresent (t : String) : Bool := pyIn "###" t || pyIn "\n- " t || pyIn "\n* " t

/-- Python `[s.strip() for s in text.split(". ") if s.strip()]`. -/
def sentencesOf (text : String) : List String :=
  ((splitDotSp text.data).map (fun l => String.mk (stripChars l))).filter (fun s => s != "")

/-- Function `format_response` from `src/bot.py` lines 123-145; `src/app.py` lines
102-125 is character-for-character the same function. -/
def format_response (raw_text : String) : String :=
  if raw_text = "" then "No response from model."
  else
    let text := pyStrip raw_text
    if markersPresent text then collapseBlank text
    else
      match sentencesOf text with
      | [] => text
      | first :: rest =>
        let short := rstripDots first
        let remaining := pyStrip (joinDotSp rest)
        let md := "### Answer\n\n" ++ short ++ ".\n"
        if remaining ≠ "" then md ++ "\n### Details\n\n" ++ remaining else md

/-- A Python exception: whether it is a `TypeError` (the only class the code
ever catches selectively, in the `get_context` of `bot.py`), and its `str()`. -/
structure PyErr where
  isTypeError : Bool := false
  msg : String := ""
deriving DecidableEq

/-- Call counts for the three external effects. -/
structure Trace where
  embeds : Nat
  idxQueries : Nat
  posts : Nat
deriving DecidableEq

def Trace.addPost : Trace → Trace
  | ⟨e, i, p⟩ => ⟨e, i, p + 1⟩

/-- Embedding vectors: never inspected, entries modelled as integers. -/
abbrev EmbVec := List Int

/-- The `documents` field of a Chroma query result: either already a flat
list of texts, or (the real Chroma shape) a list of per-query lists, of
which the code takes the first. -/
inductive Docs where
  | flat (l : List String)
  | nested (l : List (List String))

/-- Extraction `docs = results.get("documents", []); if isinstance(docs, list) and
len(docs) > 0 and isinstance(docs[0], list): docs = docs[0]`. -/
def docsList : Docs → List String
  | .flat l => l
  | .nested [] => []
  | .nested (l :: _) => l

/-- Parsed JSON value (result of `resp.json()`). -/
inductive JVal where
  | null
  | bool (b : Bool)
  | num (n : Int)
  | str (s : String)
  | arr (l : List JVal)
  | obj (l : List (String × JVal))

/-- First association for a key in a JSON object. -/
def jLookup : List (String × JVal) → String → Option JVal
  | [], _ => none
  | (k, v) :: rest, key => if k = key then some v else jLookup rest key

/-- Python `v[key]` with a string key. -/
def jGet : JVal → String → Except PyErr JVal
  | .obj l, key =>
    match jLookup l key with
    | some v => .ok v
    | none => .error { msg := "KeyError" }
  | .arr _, _ => .error { isTypeError := true, msg := "list indices must be integers" }
  | .str _, _ => .error { isTypeError := true, msg := "string indices must be integers" }
  | _, _ => .error { isTypeError := true, msg := "object is not subscriptable" }

/-- Python `v[i]` with a non-negative integer index. -/
def jIdx : JVal → Nat → Except PyErr JVal
  | .arr l, i =>
    match l.get? i with
    | some v => .ok v
    | none => .error { msg := "IndexError: list index out of range" }
  | .str s, i =>
    match s.data.get? i with
    | some c => .ok (.str (String.mk [c]))
    | none => .error { msg := "IndexError: string index out of range" }
  | .obj _, _ => .error { msg := "KeyError" }
  | _, _ => .error { isTypeError := true, msg := "object is not subscriptable" }

/-- Python `key in v` (`app.py` line 222 applies it to the parsed body). -/
def jContains (v : JVal) (key : String) : Except PyErr Bool :=
  match v with
  | .obj l => .ok (l.any (fun kv => kv.1 == key))
  | .arr l => .ok (l.any (fun x => match x with | .str s => s == key | _ => false))
  | .str s => .ok (pyIn key s)
  | _ => .error { isTypeError := true, msg := "argument is not iterable" }

/-- Join strings with `", "`. -/
def commaSep : List String → String
  | [] => ""
  | [s] => s
  | s :: rest => s ++ ", " ++ commaSep rest

/-- Join strings with `",\n"`. -/
def commaNlSep : List String → String
  | [] => ""
  | [s] => s
  | s :: rest => s ++ ",\n" ++ commaNlSep rest

/-- Python `repr` of a parsed-JSON value (escaping not modelled: the values
reaching it in this program contain no quotes or backslashes). -/
def pyRepr : JVal → String
  | .null => "None"
  | .bool true => "True"
  | .bool false => "False"
  | .num n => toString n
  | .str s => "\x27" ++ s ++ "\x27"
  | .arr l => "[" ++ commaSep (l.attach.map (fun x => pyRepr x.1)) ++ "]"
  | .obj l =>
    "\x7b" ++ commaSep (l.attach.map (fun x => "\x27" ++ x.1.1 ++ "\x27: " ++ pyRepr x.1.2)) ++ "\x7d"
termination_by v => sizeOf v
decreasing_by
  · have h := List.sizeOf_lt_of_mem x.2
    simp only [JVal.arr.sizeOf_spec]
    omega
  · obtain ⟨⟨k, w⟩, hm⟩ := x
    have h := List.sizeOf_lt_of_mem hm
    simp only [JVal.obj.sizeOf_spec, Prod.mk.sizeOf_spec] at h ⊢
    omega

/-- Python `str()` as used inside f-strings. -/
def pyStr : JVal → String
  | .str s => s
  | v => pyRepr v

def spaces : Nat → String
  | 0 => ""
  | n + 1 => " " ++ spaces n

/-- Python `json.dumps(v, indent=2)` (string escaping not modelled, as above). -/
def dumpsVal (lvl : Nat) : JVal → String
  | .null => "null"
  | .bool true => "true"
  | .bool false => "false"
  | .num n => toString n
  | .str s => "\"" ++ s ++ "\""
  | .arr [] => "[]"
  | .arr (y :: ys) =>
    "[\n" ++
      commaNlSep ((y :: ys).attach.map
        (fun x => spaces (2 * (lvl + 1)) ++ dumpsVal (lvl + 1) x.1)) ++
      "\n" ++ spaces (2 * lvl) ++ "]"
  | .obj [] => "\x7b\x7d"
  | .obj (y :: ys) =>
    "\x7b\n" ++
      commaNlSep ((y :: ys).attach.map
        (fun x => spaces (2 * (lvl + 1)) ++ "\"" ++ x.1.1 ++ "\": " ++ dumpsVal (lvl + 1) x.1.2)) ++
      "\n" ++ spaces (2 * lvl) ++ "\x7d"
termination_by v => sizeOf v
decreasing_by
  · have h := List.sizeOf_lt_of_mem x.2
    simp only [JVal.arr.sizeOf_spec]
    omega
  · obtain ⟨⟨k, w⟩, hm⟩ := x
    have h := List.sizeOf_lt_of_mem hm
    simp only [JVal.obj.sizeOf_spec, Prod.mk.sizeOf_spec] at h ⊢
    omega

def jsonDumps2 (v : JVal) : String := dumpsVal 0 v

def jTruthy : JVal → Bool
  | .null => false
  | .bool b => b
  | .num n => n != 0
  | .str s => s != ""
  | .arr l => !l.isEmpty
  | .obj l => !l.isEmpty

/-- Call `format_response(raw)` applied to the dynamically-typed value extracted
from the response body: a falsy value hits the `if not raw_text` branch, a
non-empty string is formatted, and any other truthy value raises an
`AttributeError` at `raw_text.strip()`. -/
def formatRespJ (v : JVal) : Except PyErr String :=
  if jTruthy v = false then .ok "No response from model."
  else
    match v with
    | .str s => .ok (format_response s)
    | _ => .error { msg := "AttributeError: object has no attribute strip" }

inductive Role where
  | system
  | user
deriving DecidableEq

structure Msg where
  role : Role
  content : String
deriving DecidableEq

/-- Response of `requests.post(...)`: the outcome of `.json()` and the raw
`.text` body. -/
structure HttpResp where
  jsonBody : Except PyErr JVal
  text : String

/-- The environment of one `chatbot` invocation: the resolved credential and
the outcome of each external call. -/
structure ChatEnv where
  apiKey : Option String
  collectionTruthy : Bool
  embedResult : Except PyErr EmbVec
  idxResult : Except PyErr Docs
  post : List Msg → Except PyErr HttpResp

namespace Bot

/-- List `banned` from `src/bot.py` lines 181-185. -/
def banned : List String :=
  ["buy", "sell", "which stock", "prediction", "future price", "best stock",
   "crypto", "bitcoin", "ethereum", "portfolio", "advice", "suggest",
   "recommend", "should i", "loan", "tax", "insurance", "policy", "predict"]

/-- List `finance_terms` from `src/bot.py` lines 193-197. -/
def finance_terms : List String :=
  ["nav", "inflation", "deflation", "assets", "liabilities", "aum", "capital",
   "risk", "return", "valuation", "equity", "bond", "fund", "market cap",
   "etf", "mutual fund", "expense ratio"]

/-- List `aryzen_terms` from `src/bot.py` lines 200-203. -/
def aryzen_terms : List String :=
  ["aryzen", "aryzen capital", "aryzen advisors",
   "aryzen capital advisors", "aryzen services", "aryzen team"]

/-- The deny-list loop `for b in banned: if b in q: ...` applied to the
already-lowered query. -/
def denied (q : String) : Bool := banned.any (fun b => pyIn b q)

/-- The allow-scope condition of the lowered query. -/
def inScope (q : String) : Bool :=
  finance_terms.any (fun t => pyIn t q) || aryzen_terms.any (fun t => pyIn t q)

/-- Python `[str(d).strip() for d in docs if d and str(d).strip()]`. -/
def filterDocs (docs : List String) : List String :=
  (docs.filter (fun d => d != "" && pyStrip d != "")).map pyStrip

/-- Function `get_context` from `src/bot.py` lines 151-167.  The embedding call at
line 155 sits outside the `try`, so its failure is an `Except.error`; the
`except TypeError` handler at lines 159-160 retries the very same
`collection.query` call, whose outcome in this deterministic model is the
same value again. -/
def get_context (env : ChatEnv) (query : String) (_nResults : Nat) :
    Except PyErr (List String) × Trace :=
  if query = "" ∨ env.collectionTruthy = false then (.ok [], ⟨0, 0, 0⟩)
  else
    match env.embedResult with
    | .error e => (.error e, ⟨1, 0, 0⟩)
    | .ok _ =>
      match env.idxResult with
      | .ok res => (.ok (filterDocs (docsList res)), ⟨1, 1, 0⟩)
      | .error e =>
        if e.isTypeError then
          match env.idxResult with
          | .ok res => (.ok (filterDocs (docsList res)), ⟨1, 2, 0⟩)
          | .error e2 => (.error e2, ⟨1, 2, 0⟩)
        else (.error e, ⟨1, 1, 0⟩)

/-- Chain `data["choices"][0]["message"]["content"]` followed by
`format_response(raw)`, i.e. the body of the last `try` of `chatbot`. -/
def chain (data : JVal) : Except PyErr String := do
  let c ← jGet data "choices"
  let c0 ← jIdx c 0
  let m ← jGet c0 "message"
  let raw ← jGet m "content"
  formatRespJ raw

/-- Function `chatbot` from `src/bot.py` lines 173-258. -/
def chatbot (env : ChatEnv) (query : String) : Except PyErr String × Trace :=
  if query = "" ∨ pyStrip query = "" then
    (.ok "Please ask a question related to Aryzen or basic finance.", ⟨0, 0, 0⟩)
  else
    let q := pyLower query
    if denied q then
      (.ok "I’m sorry — I cannot provide investment advice or predictions.", ⟨0, 0, 0⟩)
    else if !(finance_terms.any (fun t => pyIn t q)) && !(aryzen_terms.any (fun t => pyIn t q)) then
      (.ok "I can only answer questions related to **Aryzen Capital Advisors** and basic financial concepts.",
       ⟨0, 0, 0⟩)
    else
      match get_context env query 4 with
      | (.error e, tr) => (.error e, tr)
      | (.ok contextDocs, tr) =>
        let contextText := if contextDocs ≠ [] then joinTwoNl contextDocs else ""
        let systemMsg :=
          "You are a corporate assistant for Aryzen Capital Advisors LLP. ONLY answer questions about Aryzen or basic financial terminology. Do NOT give investment advice or predictions."
        let messages :=
          [Msg.mk Role.system systemMsg] ++
            (if contextText ≠ "" then [Msg.mk Role.system ("Context:\n" ++ contextText)] else []) ++
            [Msg.mk Role.user query]
        match env.apiKey with
        | none => (.ok "API key missing. Create `.env` with OPENROUTER_API_KEY=... ", tr)
        | some _ =>
          match env.post messages with
          | .error e => (.ok ("Network error: " ++ e.msg), tr.addPost)
          | .ok resp =>
            match resp.jsonBody with
            | .error _ => (.ok resp.text, tr.addPost)
            | .ok data =>
              match chain data with
              | .ok s => (.ok s, tr.addPost)
              | .error _ => (.ok ("Unexpected response: " ++ pyStr data), tr.addPost)

end Bot

namespace App

/-- List `banned` from `src/app.py` lines 159-164. -/
def banned : List String :=
  ["buy", "sell", "stock", "prediction", "future price",
   "crypto", "bitcoin", "ethereum", "portfolio",
   "advice", "recommend", "should i", "loan",
   "tax", "insurance", "policy", "predict"]

/-- List `finance_terms` from `src/app.py` lines 170-174. -/
def finance_terms : List String :=
  ["nav", "inflation", "deflation", "assets", "liabilities", "aum",
   "capital", "risk", "valuation", "equity", "bond", "fund",
   "market cap", "etf", "mutual fund", "expense ratio"]

/-- List `aryzen_terms` from `src/app.py` line 176. -/
def aryzen_terms : List String :=
  ["aryzen", "aryzen capital", "aryzen advisors", "aryzen team"]

def denied (q : String) : Bool := banned.any (fun b => pyIn b q)

def inScope (q : String) : Bool :=
  finance_terms.any (fun t => pyIn t q) || aryzen_terms.any (fun t => pyIn t q)

/-- Function `get_context` from `src/app.py` lines 131-146.  The embedding call at
line 135 sits outside the `try`; the bare `except` at line 139-140 turns any
`collection.query` failure into an empty result. -/
def get_context (env : ChatEnv) (query : String) (_nResults : Nat) :
    Except PyErr (List String) × Trace :=
  if query = "" then (.ok [], ⟨0, 0, 0⟩)
  else
    match env.embedResult with
    | .error e => (.error e, ⟨1, 0, 0⟩)
    | .ok _ =>
      match env.idxResult with
      | .error _ => (.ok [], ⟨1, 1, 0⟩)
      | .ok res => (.ok ((docsList res).filter (fun d => d != "")), ⟨1, 1, 0⟩)

/-- Chain `data["error"]["message"]` as interpolated by `f"API Error: {...}"`. -/
def errChain (data : JVal) : Except PyErr String := do
  let e ← jGet data "error"
  let m ← jGet e "message"
  pure (pyStr m)

/-- Function `chatbot` from `src/app.py` lines 152-230. -/
def chatbot (env : ChatEnv) (query : String) : Except PyErr String × Trace :=
  if pyStrip query = "" then
    (.ok "Please ask a question related to Aryzen or basic finance.", ⟨0, 0, 0⟩)
  else
    let q := pyLower query
    if denied q then
      (.ok "I’m sorry — I cannot provide investment advice or predictions.", ⟨0, 0, 0⟩)
    else if !(finance_terms.any (fun t => pyIn t q)) && !(aryzen_terms.any (fun t => pyIn t q)) then
      (.ok "I answer only questions related to **Aryzen** or **basic finance concepts**.", ⟨0, 0, 0⟩)
    else
      match get_context env query 4 with
      | (.error e, tr) => (.error e, tr)
      | (.ok contextDocs, tr) =>
        let contextText := if contextDocs ≠ [] then joinTwoNl contextDocs else ""
        let systemMsg :=
          "You are a corporate assistant for Aryzen Capital Advisors LLP. ONLY answer questions about Aryzen or basic finance terms. NEVER provide investment advice, predictions, or recommendations."
        let messages :=
          [Msg.mk Role.system systemMsg] ++
            (if contextText ≠ "" then [Msg.mk Role.system ("Context:\n" ++ contextText)] else []) ++
            [Msg.mk Role.user query]
        match env.apiKey with
        | none => (.ok "API key missing. Add OPENROUTER_API_KEY in Streamlit Secrets.", tr)
        | some _ =>
          match env.post messages with
          | .error e => (.ok ("Request failed: " ++ e.msg), tr.addPost)
          | .ok resp =>
            match resp.jsonBody with
            | .error e => (.ok ("Request failed: " ++ e.msg), tr.addPost)
            | .ok data =>
              match jContains data "error" with
              | .error e => (.ok ("Request failed: " ++ e.msg), tr.addPost)
              | .ok true =>
                match errChain data with
                | .ok m => (.ok ("API Error: " ++ m), tr.addPost)
                | .error e => (.ok ("Request failed: " ++ e.msg), tr.addPost)
              | .ok false => (.ok ("RAW API RESPONSE:\n\n" ++ jsonDumps2 data), tr.addPost)

end App

/-! Concrete environments used to instantiate the theorems below. -/

def netErr : PyErr := { msg := "ConnectionError" }

def embedFailErr : PyErr := { msg := "embedding backend unavailable" }

/-- Environment whose external services are never successfully reached. -/
def stubEnv : ChatEnv :=
  { apiKey := none, collectionTruthy := true, embedResult := .ok [],
    idxResult := .ok (.flat []), post := fun _ => .error netErr }

/-- Credential present, but the embedding backend raises. -/
def envEmbedFail : ChatEnv :=
  { apiKey := some "sk-test", collectionTruthy := true, embedResult := .error embedFailErr,
    idxResult := .ok (.flat []), post := fun _ => .error netErr }

/-- No credential and a failing embedding backend. -/
def envNoKeyEmbedFail : ChatEnv :=
  { apiKey := none, collectionTruthy := true, embedResult := .error embedFailErr,
    idxResult := .ok (.flat []), post := fun _ => .error netErr }

/-- No credential; retrieval works. -/
def envNoKey : ChatEnv :=
  { apiKey := none, collectionTruthy := true, embedResult := .ok [],
    idxResult := .ok (.nested [["Aryzen Capital Advisors LLP is a finance firm."]]),
    post := fun _ => .error netErr }

/-- Credential present, retrieval works, the POST raises. -/
def envNet : ChatEnv :=
  { apiKey := some "sk-test", collectionTruthy := true, embedResult := .ok [],
    idxResult := .ok (.nested [["Aryzen Capital Advisors LLP is a finance firm."]]),
    post := fun _ => .error netErr }

/-- The stubbed completion-endpoint response body of the end-to-end example
in the specification. -/
def navJson : JVal :=
  .obj [("choices", .arr [.obj [("message", .obj [("content", .str "NAV is net asset value.")])]])]

/-- Credential present and the completion endpoint returns `navJson`. -/
def envNavStub : ChatEnv :=
  { apiKey := some "sk-test", collectionTruthy := true, embedResult := .ok [],
    idxResult := .ok (.flat []), post := fun _ => .ok { jsonBody := .ok navJson, text := "" } }

/-! ### Bridging lemmas for the string primitives -/

theorem isPreOf_iff : ∀ l₁ l₂ : List Char, isPreOf l₁ l₂ = true ↔ l₁ <+: l₂
  | [], l₂ => by simp [isPreOf]
  | a :: l₁, [] => by simp [isPreOf]
  | a :: l₁, b :: l₂ => by
    simp [isPreOf, List.cons_prefix_cons, isPreOf_iff l₁ l₂]

theorem isSubOf_iff : ∀ pat l : List Char, isSubOf pat l = true ↔ pat <:+: l
  | pat, [] => by simp [isSubOf, List.isEmpty_iff]
  | pat, c :: rest => by
    simp [isSubOf, isPreOf_iff, isSubOf_iff pat rest, List.infix_cons_iff]

theorem pyIn_iff (needle hay : String) : pyIn needle hay = true ↔ needle.data <:+: hay.data :=
  isSubOf_iff _ _

theorem ws_toLower (c : Char) (h : c.isWhitespace = true) : c.toLower = c := by
  simp [Char.isWhitespace] at h
  obtain (((rfl | rfl) | rfl) | rfl) := h <;> decide

theorem stripChars_eq_nil {l : List Char} (h : stripChars l = []) :
    ∀ c ∈ l, c.isWhitespace = true := by
  unfold stripChars at h
  rw [List.reverse_eq_nil_iff, List.dropWhile_eq_nil_iff] at h
  intro c hc
  rw [← List.takeWhile_append_dropWhile Char.isWhitespace l] at hc
  rcases List.mem_append.mp hc with h1 | h2
  · exact List.mem_takeWhile_imp h1
  · exact h c (List.mem_reverse.mpr h2)

theorem strMk_eq_empty {l : List Char} : String.mk l = "" ↔ l = [] :=
  ⟨fun h => congrArg String.data h, fun h => by rw [h]⟩

theorem strData_append (a b : String) : (a ++ b).data = a.data ++ b.data := by
  cases a
  cases b
  rfl

/-- If some term of `ts` — each containing a non-whitespace character —
occurs in the lower-cased query, the query is not whitespace-only. -/
theorem anyIn_strip_ne (ts : List String) (q : String)
    (hts : ∀ t ∈ ts, ∃ c ∈ t.data, c.isWhitespace = false)
    (h : ts.any (fun t => pyIn t (pyLower q)) = true) : pyStrip q ≠ "" := by
  intro hstrip
  have hnil : stripChars q.data = [] := strMk_eq_empty.mp hstrip
  have hws := stripChars_eq_nil hnil
  rcases List.any_eq_true.mp h with ⟨t, ht, hin⟩
  rcases hts t ht with ⟨c, hc, hcws⟩
  have hinf : t.data <:+: (pyLower q).data := (pyIn_iff t (pyLower q)).mp hin
  have hmem : c ∈ q.data.map Char.toLower := hinf.subset hc
  rcases List.mem_map.mp hmem with ⟨c0, hc0, hmap⟩
  have h0 := hws c0 hc0
  rw [← hmap, ws_toLower c0 h0, h0] at hcws
  exact absurd hcws (by simp)

theorem strip_ne_not_blank {q : String} (h : pyStrip q ≠ "") :
    ¬(q = "" ∨ pyStrip q = "") := by
  rintro (rfl | h2)
  · exact h rfl
  · exact h h2

/-! ### The three early-return branches of `chatbot`, in both revisions -/

theorem bot_chatbot_blank (env : ChatEnv) (q : String) (h : pyStrip q = "") :
    Bot.chatbot env q =
      (.ok "Please ask a question related to Aryzen or basic finance.", ⟨0, 0, 0⟩) := by
  unfold Bot.chatbot
  rw [if_pos (Or.inr h)]

theorem app_chatbot_blank (env : ChatEnv) (q : String) (h : pyStrip q = "") :
    App.chatbot env q =
      (.ok "Please ask a question related to Aryzen or basic finance.", ⟨0, 0, 0⟩) := by
  unfold App.chatbot
  rw [if_pos h]

theorem bot_chatbot_denied (env : ChatEnv) (q : String)
    (h : Bot.denied (pyLower q) = true) :
    Bot.chatbot env q =
      (.ok "I’m sorry — I cannot provide investment advice or predictions.", ⟨0, 0, 0⟩) := by
  have hne : pyStrip q ≠ "" := anyIn_strip_ne Bot.banned q (by decide) h
  simp [Bot.chatbot, strip_ne_not_blank hne, h]

theorem app_chatbot_denied (env : ChatEnv) (q : String)
    (h : App.denied (pyLower q) = true) :
    App.chatbot env q =
      (.ok "I’m sorry — I cannot provide investment advice or predictions.", ⟨0, 0, 0⟩) := by
  have hne : pyStrip q ≠ "" := anyIn_strip_ne App.banned q (by decide) h
  simp [App.chatbot, hne, h]

theorem bot_chatbot_oos (env : ChatEnv) (q : String) (h0 : pyStrip q ≠ "")
    (h1 : Bot.denied (pyLower q) = false) (h2 : Bot.inScope (pyLower q) = false) :
    Bot.chatbot env q =
      (.ok "I can only answer questions related to **Aryzen Capital Advisors** and basic financial concepts.",
       ⟨0, 0, 0⟩) := by
  rw [Bot.inScope, Bool.or_eq_false_iff] at h2
  simp [Bot.chatbot, strip_ne_not_blank h0, h1, h2.1, h2.2]

theorem app_chatbot_oos (env : ChatEnv) (q : String) (h0 : pyStrip q ≠ "")
    (h1 : App.denied (pyLower q) = false) (h2 : App.inScope (pyLower q) = false) :
    App.chatbot env q =
      (.ok "I answer only questions related to **Aryzen** or **basic finance concepts**.", ⟨0, 0, 0⟩) := by
  rw [App.inScope, Bool.or_eq_false_iff] at h2
  simp [App.chatbot, h0, h1, h2.1, h2.2]

/-- Claim C1: any query whose lower-cased text contains a deny-list term as
a substring gets the fixed denial message from `chatbot`, in both revisions,
regardless of any allow-scope term also present — the deny check is decided
before the scope check. -/
theorem claim_C1_thm (env : ChatEnv) (q : String) :
    (Bot.denied (pyLower q) = true →
      (Bot.chatbot env q).1 =
        .ok "I’m sorry — I cannot provide investment advice or predictions.") ∧
    (App.denied (pyLower q) = true →
      (App.chatbot env q).1 =
        .ok "I’m sorry — I cannot provide investment advice or predictions.") := by
  constructor
  · intro h
    rw [bot_chatbot_denied env q h]
  · intro h
    rw [app_chatbot_denied env q h]

/-- Witness for C1, at the example query of the specification,
`"should I buy aryzen stock"`, which also contains the allow-scope term
`"aryzen"`. -/
theorem claim_C1_wit :
    pyIn "aryzen" (pyLower "should I buy aryzen stock") = true ∧
    Bot.denied (pyLower "should I buy aryzen stock") = true ∧
    App.denied (pyLower "should I buy aryzen stock") = true ∧
    (Bot.chatbot stubEnv "should I buy aryzen stock").1 =
      .ok "I’m sorry — I cannot provide investment advice or predictions." ∧
    (App.chatbot stubEnv "should I buy aryzen stock").1 =
      .ok "I’m sorry — I cannot provide investment advice or predictions." :=
  ⟨by decide, by decide, by decide,
   (claim_C1_thm stubEnv "should I buy aryzen stock").1 (by decide),
   (claim_C1_thm stubEnv "should I buy aryzen stock").2 (by decide)⟩

/-- Claim C2: whenever classification does not allow the query
(blank, deny-list match, or out of scope), `chatbot` returns the
corresponding fixed refusal with zero embedding calls, zero index queries
and zero completion POSTs, in both revisions. -/
theorem claim_C2_thm (env : ChatEnv) (q : String) :
    (pyStrip q = "" →
      Bot.chatbot env q =
        (.ok "Please ask a question related to Aryzen or basic finance.", ⟨0, 0, 0⟩) ∧
      App.chatbot env q =
        (.ok "Please ask a question related to Aryzen or basic finance.", ⟨0, 0, 0⟩)) ∧
    (Bot.denied (pyLower q) = true →
      Bot.chatbot env q =
        (.ok "I’m sorry — I cannot provide investment advice or predictions.", ⟨0, 0, 0⟩)) ∧
    (App.denied (pyLower q) = true →
      App.chatbot env q =
        (.ok "I’m sorry — I cannot provide investment advice or predictions.", ⟨0, 0, 0⟩)) ∧
    (pyStrip q ≠ "" → Bot.denied (pyLower q) = false → Bot.inScope (pyLower q) = false →
      Bot.chatbot env q =
        (.ok "I can only answer questions related to **Aryzen Capital Advisors** and basic financial concepts.",
         ⟨0, 0, 0⟩)) ∧
    (pyStrip q ≠ "" → App.denied (pyLower q) = false → App.inScope (pyLower q) = false →
      App.chatbot env q =
        (.ok "I answer only questions related to **Aryzen** or **basic finance concepts**.", ⟨0, 0, 0⟩)) :=
  ⟨fun h => ⟨bot_chatbot_blank env q h, app_chatbot_blank env q h⟩,
   fun h => bot_chatbot_denied env q h,
   fun h => app_chatbot_denied env q h,
   fun h0 h1 h2 => bot_chatbot_oos env q h0 h1 h2,
   fun h0 h1 h2 => app_chatbot_oos env q h0 h1 h2⟩

/-- Witness for C2, at the example of the specification, `"Tell me to buy
Bitcoin"`: the fixed policy refusal is returned and the trace is all-zero
(no embedding, no index query, no POST). -/
theorem claim_C2_wit :
    Bot.chatbot stubEnv "Tell me to buy Bitcoin" =
      (.ok "I’m sorry — I cannot provide investment advice or predictions.", ⟨0, 0, 0⟩) ∧
    App.chatbot stubEnv "Tell me to buy Bitcoin" =
      (.ok "I’m sorry — I cannot provide investment advice or predictions.", ⟨0, 0, 0⟩) :=
  ⟨(claim_C2_thm stubEnv "Tell me to buy Bitcoin").2.1 (by decide),
   (claim_C2_thm stubEnv "Tell me to buy Bitcoin").2.2.1 (by decide)⟩

/-- Counterexample for C6 as stated: `" "` is a non-empty query containing
no deny-list and no allow-scope term, yet `chatbot` returns the blank-query
message, not the out-of-scope refusal. -/
theorem claim_C6_cex :
    (" " : String) ≠ "" ∧
    Bot.denied (pyLower " ") = false ∧ Bot.inScope (pyLower " ") = false ∧
    App.denied (pyLower " ") = false ∧ App.inScope (pyLower " ") = false ∧
    (Bot.chatbot stubEnv " ").1 ≠
      .ok "I can only answer questions related to **Aryzen Capital Advisors** and basic financial concepts." ∧
    (App.chatbot stubEnv " ").1 ≠
      .ok "I answer only questions related to **Aryzen** or **basic finance concepts**." ∧
    (Bot.chatbot stubEnv " ").1 =
      .ok "Please ask a question related to Aryzen or basic finance." ∧
    (App.chatbot stubEnv " ").1 =
      .ok "Please ask a question related to Aryzen or basic finance." := by
  refine ⟨by decide, by decide, by decide, by decide, by decide, ?_, ?_, rfl, rfl⟩
  · rw [show (Bot.chatbot stubEnv " ").1 =
        Except.ok "Please ask a question related to Aryzen or basic finance." from rfl]
    simp only [ne_eq, Except.ok.injEq]
    decide
  · rw [show (App.chatbot stubEnv " ").1 =
        Except.ok "Please ask a question related to Aryzen or basic finance." from rfl]
    simp only [ne_eq, Except.ok.injEq]
    decide

/-- Claim C6 (amended: "non-empty" must read "not whitespace-only"): a query
that is not whitespace-only, with no deny-list term and no allow-scope term
in its lower-cased text, gets the fixed out-of-scope refusal in both
revisions. -/
theorem claim_C6_thm (env : ChatEnv) (q : String) (h0 : pyStrip q ≠ "") :
    (Bot.denied (pyLower q) = false → Bot.inScope (pyLower q) = false →
      (Bot.chatbot env q).1 =
        .ok "I can only answer questions related to **Aryzen Capital Advisors** and basic financial concepts.") ∧
    (App.denied (pyLower q) = false → App.inScope (pyLower q) = false →
      (App.chatbot env q).1 =
        .ok "I answer only questions related to **Aryzen** or **basic finance concepts**.") := by
  constructor
  · intro h1 h2
    rw [bot_chatbot_oos env q h0 h1 h2]
  · intro h1 h2
    rw [app_chatbot_oos env q h0 h1 h2]

/-- Witness for C6 (amended), at `"hello world"`. -/
theorem claim_C6_wit :
    (Bot.chatbot stubEnv "hello world").1 =
      .ok "I can only answer questions related to **Aryzen Capital Advisors** and basic financial concepts." ∧
    (App.chatbot stubEnv "hello world").1 =
      .ok "I answer only questions related to **Aryzen** or **basic finance concepts**." :=
  ⟨(claim_C6_thm stubEnv "hello world" (by decide)).1 (by decide) (by decide),
   (claim_C6_thm stubEnv "hello world" (by decide)).2 (by decide) (by decide)⟩

/-! ### Retrieval lemmas -/

theorem bot_get_context_embed_fail (env : ChatEnv) (q : String) (n : Nat) (e : PyErr)
    (hq : q ≠ "") (hc : env.collectionTruthy = true) (he : env.embedResult = .error e) :
    Bot.get_context env q n = (.error e, ⟨1, 0, 0⟩) := by
  unfold Bot.get_context
  rw [if_neg (by simp [hq, hc]), he]

theorem app_get_context_embed_fail (env : ChatEnv) (q : String) (n : Nat) (e : PyErr)
    (hq : q ≠ "") (he : env.embedResult = .error e) :
    App.get_context env q n = (.error e, ⟨1, 0, 0⟩) := by
  unfold App.get_context
  rw [if_neg hq, he]

theorem bot_get_context_idx_fail (env : ChatEnv) (q : String) (n : Nat) (emb : EmbVec)
    (e : PyErr) (hq : q ≠ "") (hc : env.collectionTruthy = true)
    (he : env.embedResult = .ok emb) (hi : env.idxResult = .error e) :
    (Bot.get_context env q n).1 = .error e := by
  unfold Bot.get_context
  rw [if_neg (by simp [hq, hc]), he, hi]
  cases hT : e.isTypeError <;> simp [hT]

theorem app_get_context_idx_fail (env : ChatEnv) (q : String) (n : Nat) (emb : EmbVec)
    (e : PyErr) (hq : q ≠ "") (he : env.embedResult = .ok emb) (hi : env.idxResult = .error e) :
    App.get_context env q n = (.ok [], ⟨1, 1, 0⟩) := by
  unfold App.get_context
  rw [if_neg hq, he, hi]

theorem bot_get_context_ok (env : ChatEnv) (q : String) (n : Nat) (emb : EmbVec) (ds : Docs)
    (hq : q ≠ "") (hc : env.collectionTruthy = true)
    (he : env.embedResult = .ok emb) (hi : env.idxResult = .ok ds) :
    Bot.get_context env q n = (.ok (Bot.filterDocs (docsList ds)), ⟨1, 1, 0⟩) := by
  unfold Bot.get_context
  rw [if_neg (by simp [hq, hc]), he, hi]

theorem app_get_context_ok (env : ChatEnv) (q : String) (n : Nat) (emb : EmbVec) (ds : Docs)
    (hq : q ≠ "") (he : env.embedResult = .ok emb) (hi : env.idxResult = .ok ds) :
    App.get_context env q n = (.ok ((docsList ds).filter (fun d => d != "")), ⟨1, 1, 0⟩) := by
  unfold App.get_context
  rw [if_neg hq, he, hi]

theorem bot_get_context_isOk (env : ChatEnv) (q : String) (n : Nat) (emb : EmbVec) (ds : Docs)
    (he : env.embedResult = .ok emb) (hi : env.idxResult = .ok ds) :
    ∃ l tr, Bot.get_context env q n = (.ok l, tr) := by
  unfold Bot.get_context
  by_cases h : q = "" ∨ env.collectionTruthy = false
  · rw [if_pos h]
    exact ⟨[], _, rfl⟩
  · rw [if_neg h, he, hi]
    exact ⟨_, _, rfl⟩

theorem app_get_context_isOk (env : ChatEnv) (q : String) (n : Nat) (emb : EmbVec)
    (he : env.embedResult = .ok emb) :
    ∃ l tr, App.get_context env q n = (.ok l, tr) := by
  unfold App.get_context
  by_cases h : q = ""
  · rw [if_pos h]
    exact ⟨[], _, rfl⟩
  · rw [if_neg h, he]
    rcases hi : env.idxResult with e | ds
    · exact ⟨[], _, rfl⟩
    · exact ⟨_, _, rfl⟩

theorem bot_chatbot_isOk (env : ChatEnv) (q : String) (emb : EmbVec) (ds : Docs)
    (he : env.embedResult = .ok emb) (hi : env.idxResult = .ok ds) :
    ((Bot.chatbot env q).1).isOk = true := by
  obtain ⟨l, tr, hgc⟩ := bot_get_context_isOk env q 4 emb ds he hi
  unfold Bot.chatbot
  rw [hgc]
  split
  · rfl
  · dsimp only
    repeat' split <;> try rfl

theorem app_chatbot_isOk (env : ChatEnv) (q : String) (emb : EmbVec)
    (he : env.embedResult = .ok emb) :
    ((App.chatbot env q).1).isOk = true := by
  obtain ⟨l, tr, hgc⟩ := app_get_context_isOk env q 4 emb he
  unfold App.chatbot
  rw [hgc]
  split
  · rfl
  · dsimp only
    repeat' split <;> try rfl
theorem bot_get_context_posts (env : ChatEnv) (q : String) (n : Nat) :
    (Bot.get_context env q n).2.posts = 0 := by
  unfold Bot.get_context
  split
  · rfl
  · rcases env.embedResult with e | emb
    · rfl
    · rcases env.idxResult with e | ds
      · dsimp only
        split <;> rfl
      · rfl

theorem app_get_context_posts (env : ChatEnv) (q : String) (n : Nat) :
    (App.get_context env q n).2.posts = 0 := by
  unfold App.get_context
  split
  · rfl
  · rcases env.embedResult with e | emb
    · rfl
    · rcases env.idxResult with e | ds <;> rfl

theorem bot_chatbot_noKey_posts (env : ChatEnv) (q : String) (hk : env.apiKey = none) :
    (Bot.chatbot env q).2.posts = 0 := by
  have hp := bot_get_context_posts env q 4
  unfold Bot.chatbot
  split
  · rfl
  · dsimp only
    split
    · rfl
    · split
      · rfl
      · rcases hgc : Bot.get_context env q 4 with ⟨e | docs, tr⟩
        · rw [hgc] at hp
          simpa using hp
        · rw [hgc] at hp
          dsimp only
          rw [hk]
          simpa using hp

theorem app_chatbot_noKey_posts (env : ChatEnv) (q : String) (hk : env.apiKey = none) :
    (App.chatbot env q).2.posts = 0 := by
  have hp := app_get_context_posts env q 4
  unfold App.chatbot
  split
  · rfl
  · dsimp only
    split
    · rfl
    · split
      · rfl
      · rcases hgc : App.get_context env q 4 with ⟨e | docs, tr⟩
        · rw [hgc] at hp
          simpa using hp
        · rw [hgc] at hp
          dsimp only
          rw [hk]
          simpa using hp

theorem bot_chatbot_noKey_msg (env : ChatEnv) (q : String) (emb : EmbVec) (ds : Docs)
    (hk : env.apiKey = none) (h0 : pyStrip q ≠ "") (h1 : Bot.denied (pyLower q) = false)
    (h2 : Bot.inScope (pyLower q) = true) (he : env.embedResult = .ok emb)
    (hi : env.idxResult = .ok ds) :
    (Bot.chatbot env q).1 = .ok "API key missing. Create `.env` with OPENROUTER_API_KEY=... " := by
  obtain ⟨l, tr, hgc⟩ := bot_get_context_isOk env q 4 emb ds he hi
  rw [Bot.inScope] at h2
  have hc : ((!Bot.finance_terms.any fun t => pyIn t (pyLower q)) &&
      !Bot.aryzen_terms.any fun t => pyIn t (pyLower q)) = false := by
    rcases Bool.or_eq_true_iff.mp h2 with h | h <;> simp [h]
  unfold Bot.chatbot
  rw [if_neg (strip_ne_not_blank h0), hgc]
  dsimp only
  rw [if_neg (by simp [h1]), if_neg (by simp [hc])]
  rw [hk]

theorem app_chatbot_noKey_msg (env : ChatEnv) (q : String) (emb : EmbVec)
    (hk : env.apiKey = none) (h0 : pyStrip q ≠ "") (h1 : App.denied (pyLower q) = false)
    (h2 : App.inScope (pyLower q) = true) (he : env.embedResult = .ok emb) :
    (App.chatbot env q).1 = .ok "API key missing. Add OPENROUTER_API_KEY in Streamlit Secrets." := by
  obtain ⟨l, tr, hgc⟩ := app_get_context_isOk env q 4 emb he
  rw [App.inScope] at h2
  have hc : ((!App.finance_terms.any fun t => pyIn t (pyLower q)) &&
      !App.aryzen_terms.any fun t => pyIn t (pyLower q)) = false := by
    rcases Bool.or_eq_true_iff.mp h2 with h | h <;> simp [h]
  unfold App.chatbot
  rw [if_neg h0, hgc]
  dsimp only
  rw [if_neg (by simp [h1]), if_neg (by simp [hc])]
  rw [hk]

/-- Claim C3 (amended): once the embedding call has succeeded (and, in
`bot.py`, the index query as well), every later failure — index query
(`app.py`), POST, JSON decoding, or response-shape extraction — is caught
and turned into an `ok` string; but a failing embedding backend is *not*
caught (see the counterexample), so the claimed "no exception escapes under
any input" does not hold as stated. -/
theorem claim_C3_thm (env : ChatEnv) (q : String) (emb : EmbVec) (ds : Docs) :
    (env.embedResult = .ok emb → env.idxResult = .ok ds →
      ((Bot.chatbot env q).1).isOk = true) ∧
    (env.embedResult = .ok emb → ((App.chatbot env q).1).isOk = true) :=
  ⟨fun he hi => bot_chatbot_isOk env q emb ds he hi,
   fun he => app_chatbot_isOk env q emb he⟩

/-- Counterexample for C3 as stated: on the allowed query `"what is NAV"`,
with the embedding backend raising, the exception propagates out of
`chatbot` in both revisions. -/
theorem claim_C3_cex :
    (Bot.chatbot envEmbedFail "what is NAV").1 = .error embedFailErr ∧
    (App.chatbot envEmbedFail "what is NAV").1 = .error embedFailErr :=
  ⟨rfl, rfl⟩

/-- Witness for C3 (amended): with working retrieval and a failing POST,
both chatbots still return an `ok` string. -/
theorem claim_C3_wit :
    ((Bot.chatbot envNet "what is NAV").1).isOk = true ∧
    ((App.chatbot envNet "what is NAV").1).isOk = true :=
  ⟨(claim_C3_thm envNet "what is NAV" []
      (.nested [["Aryzen Capital Advisors LLP is a finance firm."]])).1 rfl rfl,
   (claim_C3_thm envNet "what is NAV" []
      (.nested [["Aryzen Capital Advisors LLP is a finance firm."]])).2 rfl⟩

/-- Claim C5 (amended): `get_context` propagates an embedding failure to its
caller in both revisions; an index-query failure yields the empty context in
`app.py` but propagates in `bot.py` (whose `except TypeError` handler
retries the identical failing call); an empty result list is returned as the
empty context, never as an error. -/
theorem claim_C5_thm (env : ChatEnv) (q : String) (e : PyErr) (emb : EmbVec) :
    (q ≠ "" → env.collectionTruthy = true → env.embedResult = .error e →
      Bot.get_context env q 4 = (.error e, ⟨1, 0, 0⟩)) ∧
    (q ≠ "" → env.embedResult = .error e →
      App.get_context env q 4 = (.error e, ⟨1, 0, 0⟩)) ∧
    (q ≠ "" → env.embedResult = .ok emb → env.idxResult = .error e →
      App.get_context env q 4 = (.ok [], ⟨1, 1, 0⟩)) ∧
    (q ≠ "" → env.collectionTruthy = true → env.embedResult = .ok emb →
      env.idxResult = .error e → (Bot.get_context env q 4).1 = .error e) ∧
    (q ≠ "" → env.embedResult = .ok emb → env.idxResult = .ok (Docs.flat []) →
      App.get_context env q 4 = (.ok [], ⟨1, 1, 0⟩) ∧
      (env.collectionTruthy = true → Bot.get_context env q 4 = (.ok [], ⟨1, 1, 0⟩))) := by
  refine ⟨fun hq hc he => bot_get_context_embed_fail env q 4 e hq hc he,
          fun hq he => app_get_context_embed_fail env q 4 e hq he,
          fun hq he hi => app_get_context_idx_fail env q 4 emb e hq he hi,
          fun hq hc he hi => bot_get_context_idx_fail env q 4 emb e hq hc he hi,
          fun hq he hi => ⟨?_, fun hc => ?_⟩⟩
  · rw [app_get_context_ok env q 4 emb (Docs.flat []) hq he hi]
    rfl
  · rw [bot_get_context_ok env q 4 emb (Docs.flat []) hq hc he hi]
    rfl

/-- Counterexample for C5 as stated: a failing embedding backend makes
`get_context` raise (return an error), not return the empty context. -/
theorem claim_C5_cex :
    Bot.get_context envEmbedFail "what is NAV" 4 = (.error embedFailErr, ⟨1, 0, 0⟩) ∧
    App.get_context envEmbedFail "what is NAV" 4 = (.error embedFailErr, ⟨1, 0, 0⟩) :=
  ⟨rfl, rfl⟩

/-- Witness for C5 (amended), instantiating the embedding-failure conjuncts
and the empty-index conjunct at concrete environments. -/
theorem claim_C5_wit :
    Bot.get_context envEmbedFail "what is NAV" 4 = (.error embedFailErr, ⟨1, 0, 0⟩) ∧
    App.get_context envEmbedFail "what is NAV" 4 = (.error embedFailErr, ⟨1, 0, 0⟩) ∧
    App.get_context stubEnv "what is NAV" 4 = (.ok [], ⟨1, 1, 0⟩) ∧
    Bot.get_context stubEnv "what is NAV" 4 = (.ok [], ⟨1, 1, 0⟩) :=
  ⟨(claim_C5_thm envEmbedFail "what is NAV" embedFailErr []).1 (by decide) rfl rfl,
   (claim_C5_thm envEmbedFail "what is NAV" embedFailErr []).2.1 (by decide) rfl,
   ((claim_C5_thm stubEnv "what is NAV" embedFailErr []).2.2.2.2 (by decide) rfl rfl).1,
   ((claim_C5_thm stubEnv "what is NAV" embedFailErr []).2.2.2.2 (by decide) rfl rfl).2 rfl⟩

/-- Claim C9 (amended): with no credential configured, no completion POST is
ever made (in every environment, even when retrieval raises); and provided
retrieval itself does not raise — the credential check sits *after* the
retrieval step — `chatbot` returns the fixed "API key missing" message of
the respective revision. -/
theorem claim_C9_thm (env : ChatEnv) (q : String) (emb : EmbVec) (ds : Docs)
    (hk : env.apiKey = none) :
    ((Bot.chatbot env q).2.posts = 0 ∧ (App.chatbot env q).2.posts = 0) ∧
    (pyStrip q ≠ "" → Bot.denied (pyLower q) = false → Bot.inScope (pyLower q) = true →
      env.embedResult = .ok emb → env.idxResult = .ok ds →
      (Bot.chatbot env q).1 = .ok "API key missing. Create `.env` with OPENROUTER_API_KEY=... ") ∧
    (pyStrip q ≠ "" → App.denied (pyLower q) = false → App.inScope (pyLower q) = true →
      env.embedResult = .ok emb →
      (App.chatbot env q).1 = .ok "API key missing. Add OPENROUTER_API_KEY in Streamlit Secrets.") :=
  ⟨⟨bot_chatbot_noKey_posts env q hk, app_chatbot_noKey_posts env q hk⟩,
   fun h0 h1 h2 he hi => bot_chatbot_noKey_msg env q emb ds hk h0 h1 h2 he hi,
   fun h0 h1 h2 he => app_chatbot_noKey_msg env q emb hk h0 h1 h2 he⟩

/-- Counterexample for C9 as stated: no credential, allowed query, failing
embedding backend — `chatbot` raises instead of returning the fixed
message (though it still makes no POST). -/
theorem claim_C9_cex :
    envNoKeyEmbedFail.apiKey = none ∧
    pyStrip "what is NAV" ≠ "" ∧
    Bot.denied (pyLower "what is NAV") = false ∧
    Bot.inScope (pyLower "what is NAV") = true ∧
    App.denied (pyLower "what is NAV") = false ∧
    App.inScope (pyLower "what is NAV") = true ∧
    (Bot.chatbot envNoKeyEmbedFail "what is NAV").1 = .error embedFailErr ∧
    (App.chatbot envNoKeyEmbedFail "what is NAV").1 = .error embedFailErr :=
  ⟨rfl, by decide, by decide, by decide, by decide, by decide, rfl, rfl⟩

/-- Witness for C9 (amended), at an environment with working retrieval and
no credential. -/
theorem claim_C9_wit :
    (Bot.chatbot envNoKey "what is NAV").2.posts = 0 ∧
    (App.chatbot envNoKey "what is NAV").2.posts = 0 ∧
    (Bot.chatbot envNoKey "what is NAV").1 =
      .ok "API key missing. Create `.env` with OPENROUTER_API_KEY=... " ∧
    (App.chatbot envNoKey "what is NAV").1 =
      .ok "API key missing. Add OPENROUTER_API_KEY in Streamlit Secrets." :=
  ⟨(claim_C9_thm envNoKey "what is NAV" []
      (.nested [["Aryzen Capital Advisors LLP is a finance firm."]]) rfl).1.1,
   (claim_C9_thm envNoKey "what is NAV" []
      (.nested [["Aryzen Capital Advisors LLP is a finance firm."]]) rfl).1.2,
   (claim_C9_thm envNoKey "what is NAV" []
      (.nested [["Aryzen Capital Advisors LLP is a finance firm."]]) rfl).2.1
     (by decide) (by decide) (by decide) rfl rfl,
   (claim_C9_thm envNoKey "what is NAV" []
      (.nested [["Aryzen Capital Advisors LLP is a finance firm."]]) rfl).2.2
     (by decide) (by decide) (by decide) rfl⟩
/-! ### String-append and formatter helper lemmas -/

theorem str_append_eq_empty (a b : String) : a ++ b = "" ↔ a = "" ∧ b = "" := by
  rcases a with ⟨la⟩
  rcases b with ⟨lb⟩
  show String.mk (la ++ lb) = "" ↔ _
  rw [strMk_eq_empty, List.append_eq_nil, strMk_eq_empty, strMk_eq_empty]

theorem str_append_assoc (a b c : String) : a ++ b ++ c = a ++ (b ++ c) := by
  rcases a with ⟨la⟩
  rcases b with ⟨lb⟩
  rcases c with ⟨lc⟩
  show String.mk (la ++ lb ++ lc) = String.mk (la ++ (lb ++ lc))
  rw [List.append_assoc]

theorem str_append_empty (a : String) : a ++ "" = a := by
  rcases a with ⟨la⟩
  show String.mk (la ++ []) = String.mk la
  rw [List.append_nil]

theorem replAll_ne_nil : ∀ l : List Char, l ≠ [] → replAll l ≠ []
  | [], h => absurd rfl h
  | [c], _ => by simp [replAll]
  | [c1, c2], _ => by simp [replAll]
  | c1 :: c2 :: c3 :: rest, _ => by
    simp only [replAll]
    split <;> simp

theorem collapseAux_ne_nil : ∀ (n : Nat) (l : List Char), l ≠ [] → collapseAux n l ≠ []
  | 0, _, h => h
  | n + 1, l, h => by
    simp only [collapseAux]
    split
    · exact collapseAux_ne_nil n (replAll l) (replAll_ne_nil l h)
    · exact h

theorem collapseNl_ne_nil (l : List Char) (h : l ≠ []) : collapseNl l ≠ [] :=
  collapseAux_ne_nil l.length l h

theorem dropWhile_head?_not (p : Char → Bool) :
    ∀ (l : List Char) (c : Char), (l.dropWhile p).head? = some c → p c = false
  | [], c, h => by simp at h
  | a :: l, c, h => by
    rw [List.dropWhile_cons] at h
    split at h
    · exact dropWhile_head?_not p l c h
    · rename_i hpa
      simp only [List.head?_cons, Option.some.injEq] at h
      subst h
      exact Bool.eq_false_iff.mpr hpa

/-- Python `rstrip(".")` leaves no trailing period: its last character, if any, is
not `'.'`. -/
theorem rstripDots_getLast? (s : String) : (rstripDots s).data.getLast? ≠ some '.' := by
  unfold rstripDots
  dsimp only
  rw [List.getLast?_reverse]
  intro h
  have hp := dropWhile_head?_not (fun c => c == '.') s.data.reverse '.' h
  simp at hp

/-- Claim C4 (the code bug in `app.py`): with the completion endpoint
stubbed to return `{"choices":[{"message":{"content":"NAV is net asset
value."}}]}` on the allowed query `"what is NAV"`, the `chatbot` of `bot.py`
returns the formatted text with an "Answer" section containing that
sentence, while the `chatbot` of `app.py` returns the raw JSON payload (prefixed
`"RAW API RESPONSE:"`) instead of the extracted, formatted completion
text — the defect the design notes of the specification call out. -/
theorem claim_C4_thm :
    (Bot.chatbot envNavStub "what is NAV").1 =
      .ok "### Answer\n\nNAV is net asset value.\n" ∧
    pyIn "### Answer" "### Answer\n\nNAV is net asset value.\n" = true ∧
    pyIn "NAV is net asset value." "### Answer\n\nNAV is net asset value.\n" = true ∧
    (App.chatbot envNavStub "what is NAV").1 =
      .ok ("RAW API RESPONSE:\n\n" ++ jsonDumps2 navJson) :=
  ⟨rfl, by decide, by decide, rfl⟩

/-- Counterexample for C7 as stated: on the non-empty, whitespace-only
input `" "`, `format_response` returns the empty string. -/
theorem claim_C7_cex : format_response " " = "" ∧ (" " : String) ≠ "" :=
  ⟨rfl, by decide⟩

/-- Claim C7 (amended): `format_response("")` is the fixed "no response"
sentinel, and the result is non-empty for every input that is not
whitespace-only; a non-empty whitespace-only input, however, yields the
empty string (see the counterexample). -/
theorem claim_C7_thm :
    format_response "" = "No response from model." ∧
    ∀ s : String, pyStrip s ≠ "" → format_response s ≠ "" := by
  refine ⟨rfl, ?_⟩
  intro s hs
  have hsne : s ≠ "" := by
    rintro rfl
    exact hs rfl
  have hdata : (pyStrip s).data ≠ [] := fun h => hs (strMk_eq_empty.mpr h)
  unfold format_response
  rw [if_neg hsne]
  dsimp only
  by_cases hm : markersPresent (pyStrip s) = true
  · rw [if_pos hm]
    unfold collapseBlank
    rw [Ne, strMk_eq_empty]
    exact collapseNl_ne_nil _ hdata
  · rw [if_neg hm]
    cases hsen : sentencesOf (pyStrip s) with
    | nil => exact hs
    | cons first rest =>
      dsimp only
      split <;> simp [str_append_eq_empty]

/-- Witness for C7 (amended). -/
theorem claim_C7_wit :
    format_response "" = "No response from model." ∧ format_response "abc" ≠ "" :=
  ⟨claim_C7_thm.1, claim_C7_thm.2 "abc" (by decide)⟩

/-- Claim C10: on non-empty input without markdown markers whose `". "`
split yields at least one non-empty segment, the output starts with the
"Answer" heading followed by the first segment with all its trailing
periods removed and exactly one period appended (the character before the
appended period is never itself a period). -/
theorem claim_C10_thm (s first : String) (rest : List String)
    (hs : s ≠ "") (hm : markersPresent (pyStrip s) = false)
    (hsen : sentencesOf (pyStrip s) = first :: rest) :
    (rstripDots first).data.getLast? ≠ some '.' ∧
    ∃ d : String,
      format_response s = "### Answer\n\n" ++ rstripDots first ++ ".\n" ++ d := by
  refine ⟨rstripDots_getLast? first, ?_⟩
  unfold format_response
  rw [if_neg hs]
  dsimp only
  rw [if_neg (by simp [hm]), hsen]
  dsimp only
  split
  · exact ⟨"\n### Details\n\n" ++ pyStrip (joinDotSp rest),
      str_append_assoc ("### Answer\n\n" ++ rstripDots first ++ ".\n") "\n### Details\n\n"
        (pyStrip (joinDotSp rest))⟩
  · exact ⟨"", (str_append_empty _).symm⟩

/-- Witness for C10, at `"Wait... Done."`: the first segment `"Wait.."`
is emitted as `"Wait."` — trailing periods rewritten to exactly one. -/
theorem claim_C10_wit :
    ((rstripDots "Wait..").data.getLast? ≠ some '.' ∧
      ∃ d : String,
        format_response "Wait... Done." =
          "### Answer\n\n" ++ rstripDots "Wait.." ++ ".\n" ++ d) ∧
    format_response "Wait... Done." = "### Answer\n\nWait.\n\n### Details\n\nDone." :=
  ⟨claim_C10_thm "Wait... Done." "Wait.." ["Done."] (by decide) (by decide) (by decide), rfl⟩
/-! ### The blank-line-collapsing loop computes the `capNl` normal form -/

theorem capNl_cons_ne (c : Char) (l : List Char) (hc : c ≠ '\n') :
    capNl (c :: l) = c :: capNl l := by
  rw [capNl]
  rw [if_neg (fun h => hc h.1)]

theorem capNl_rep : ∀ (k : Nat) (r : List Char), r.head? ≠ some '\n' →
    capNl (List.replicate k '\n' ++ r) = List.replicate (min k 2) '\n' ++ capNl r
  | 0, r, _ => by simp
  | 1, r, h => by
    rw [show min 1 2 = 1 from rfl]
    simp only [List.replicate_succ, List.replicate_zero, List.cons_append, List.nil_append]
    rw [capNl]
    rw [if_neg (fun hcond => h hcond.2.1)]
  | 2, r, h => by
    have h1 := capNl_rep 1 r h
    rw [show min 1 2 = 1 from rfl] at h1
    rw [show min 2 2 = 2 from rfl]
    simp only [List.replicate_succ, List.replicate_zero, List.cons_append,
      List.nil_append] at h1 ⊢
    rw [capNl]
    rw [if_neg (fun hcond => h (by simpa using hcond.2.2)), h1]
  | (k + 3), r, h => by
    have IH := capNl_rep (k + 2) r h
    have hmin : min (k + 3) 2 = min (k + 2) 2 := by omega
    rw [hmin]
    simp only [List.replicate_succ, List.cons_append] at IH ⊢
    rw [capNl]
    rw [if_pos ⟨rfl, by simp, by simp⟩]
    exact IH

theorem replAll_len : ∀ l : List Char, (replAll l).length ≤ l.length
  | [] => Nat.le_refl _
  | [_] => Nat.le_refl _
  | [_, _] => Nat.le_refl _
  | c1 :: c2 :: c3 :: rest => by
    simp only [replAll]
    split
    · have := replAll_len rest
      simp only [List.length_cons]
      omega
    · have := replAll_len (c2 :: c3 :: rest)
      simp only [List.length_cons] at this ⊢
      omega

theorem replAll_cons_ne : ∀ (c : Char) (l : List Char), c ≠ '\n' →
    replAll (c :: l) = c :: replAll l
  | _, [], _ => rfl
  | _, [_], _ => rfl
  | c, x :: y :: r, hc => by
    simp only [replAll]
    rw [if_neg (fun hcond => hc hcond.1)]

theorem replAll_head? : ∀ l : List Char, (replAll l).head? = l.head?
  | [] => rfl
  | [_] => rfl
  | [_, _] => rfl
  | c1 :: c2 :: c3 :: rest => by
    simp only [replAll]
    split
    · rename_i hcond
      simp [hcond.1]
    · rfl

theorem replAll_rep : ∀ (k : Nat) (r : List Char), r.head? ≠ some '\n' →
    replAll (List.replicate k '\n' ++ r) =
      List.replicate (2 * (k / 3) + k % 3) '\n' ++ replAll r
  | 0, r, _ => by simp
  | 1, r, h => by
    match r with
    | [] => rfl
    | [x] => rfl
    | x :: y :: r' =>
      have hx : x ≠ '\n' := fun hh => h (by simp [hh])
      rw [show 2 * (1 / 3) + 1 % 3 = 1 from rfl]
      simp only [List.replicate_succ, List.replicate_zero, List.cons_append, List.nil_append,
        replAll]
      rw [if_neg (fun hcond => hx hcond.2.1)]
  | 2, r, h => by
    match r with
    | [] => rfl
    | x :: r' =>
      have hx : x ≠ '\n' := fun hh => h (by simp [hh])
      have h1 := replAll_rep 1 (x :: r') h
      rw [show 2 * (1 / 3) + 1 % 3 = 1 from rfl] at h1
      rw [show 2 * (2 / 3) + 2 % 3 = 2 from rfl]
      simp only [List.replicate_succ, List.replicate_zero, List.cons_append,
        List.nil_append] at h1 ⊢
      rw [replAll]
      rw [if_neg (fun hcond => hx hcond.2.2), h1]
  | (k + 3), r, h => by
    have IH := replAll_rep k r h
    have harith : 2 * ((k + 3) / 3) + (k + 3) % 3 = 2 * (k / 3) + k % 3 + 1 + 1 := by omega
    rw [harith]
    simp only [List.replicate_succ, List.cons_append]
    rw [replAll]
    rw [if_pos ⟨rfl, rfl, rfl⟩, IH]

theorem takeWhile_nl_rep (l : List Char) :
    l.takeWhile (fun c => c == '\n') =
      List.replicate (l.takeWhile (fun c => c == '\n')).length '\n' :=
  List.eq_replicate_of_mem (fun b hb => by
    have := List.mem_takeWhile_imp hb
    simpa using this)

theorem hasTriple_cons (c : Char) (l : List Char) (h : hasTriple l = true) :
    hasTriple (c :: l) = true := by
  rw [hasTriple, isSubOf_iff] at h ⊢
  exact List.infix_cons h

theorem noTriple_capNl : ∀ l : List Char, hasTriple l = false → capNl l = l
  | [], _ => rfl
  | c :: rest, h => by
    have hr : hasTriple rest = false := by
      cases hres : hasTriple rest
      · rfl
      · exact absurd (hasTriple_cons c rest hres) (by simp [h])
    rw [capNl]
    rw [if_neg ?hcond, noTriple_capNl rest hr]
    case hcond =>
      rintro ⟨rfl, h2, h3⟩
      cases rest with
      | nil => simp at h2
      | cons b bs =>
        simp only [List.head?_cons, Option.some.injEq] at h2
        subst h2
        simp only [List.tail_cons] at h3
        cases bs with
        | nil => simp at h3
        | cons b2 bs2 =>
          simp only [List.head?_cons, Option.some.injEq] at h3
          subst h3
          simp [hasTriple, isSubOf, isPreOf] at h

theorem hasTriple_replAll_len : ∀ l : List Char, hasTriple l = true →
    (replAll l).length < l.length
  | [], h => by simp [hasTriple, isSubOf] at h
  | [c], h => by
    have := ((isSubOf_iff _ _).mp h).length_le
    simp at this
  | [c1, c2], h => by
    have := ((isSubOf_iff _ _).mp h).length_le
    simp at this
  | c1 :: c2 :: c3 :: rest, h => by
    simp only [replAll]
    split
    · have := replAll_len rest
      simp only [List.length_cons]
      omega
    · rename_i hcond
      have hsub : hasTriple (c2 :: c3 :: rest) = true := by
        rw [hasTriple, isSubOf_iff] at h ⊢
        rcases h with ⟨s, u, hsu⟩
        match s, hsu with
        | [], hsu =>
          simp only [List.nil_append, List.cons_append] at hsu
          injection hsu with e1 hsu
          injection hsu with e2 hsu
          injection hsu with e3 hsu
          exact absurd ⟨e1.symm, e2.symm, e3.symm⟩ hcond
        | x :: s', hsu =>
          simp only [List.cons_append] at hsu
          injection hsu with _ hsu
          exact ⟨s', u, hsu⟩
      have := hasTriple_replAll_len (c2 :: c3 :: rest) hsub
      simp only [List.length_cons] at this ⊢
      omega

/-- The while-loop body preserves the `capNl` normal form. -/
theorem capNl_replAll_aux : ∀ (n : Nat) (t : List Char), t.length ≤ n →
    capNl (replAll t) = capNl t := by
  intro n
  induction n with
  | zero =>
    intro t ht
    rw [List.length_eq_zero.mp (Nat.le_zero.mp ht)]
    rfl
  | succ n ih =>
    intro t ht
    cases t with
    | nil => rfl
    | cons c rest =>
      have hrestn : rest.length ≤ n := by
        simp only [List.length_cons] at ht
        omega
      by_cases hc : c = '\n'
      · subst hc
        have htw := takeWhile_nl_rep ('\n' :: rest)
        set k := (('\n' :: rest).takeWhile (fun c => c == '\n')).length with hkdef
        set r := ('\n' :: rest).dropWhile (fun c => c == '\n') with hrdef
        have hdec : ('\n' :: rest) = List.replicate k '\n' ++ r := by
          conv_lhs => rw [← List.takeWhile_append_dropWhile (fun c => c == '\n') ('\n' :: rest)]
          rw [htw]
        have hr2 : r = rest.dropWhile (fun c => c == '\n') := by
          rw [hrdef, List.dropWhile_cons]
          simp
        have hrlen : r.length ≤ rest.length := by
          rw [hr2]
          exact (List.dropWhile_sublist _).length_le
        have hdr : r.head? ≠ some '\n' := by
          intro hh
          have := dropWhile_head?_not (fun c => c == '\n') ('\n' :: rest) '\n'
            (by rw [← hrdef]; exact hh)
          simp at this
        have hdr2 : (replAll r).head? ≠ some '\n' := by
          rw [replAll_head?]
          exact hdr
        calc capNl (replAll ('\n' :: rest))
            = capNl (replAll (List.replicate k '\n' ++ r)) := by rw [← hdec]
          _ = capNl (List.replicate (2 * (k / 3) + k % 3) '\n' ++ replAll r) := by
              rw [replAll_rep k r hdr]
          _ = List.replicate (min (2 * (k / 3) + k % 3) 2) '\n' ++ capNl (replAll r) :=
              capNl_rep _ _ hdr2
          _ = List.replicate (min (2 * (k / 3) + k % 3) 2) '\n' ++ capNl r := by
              rw [ih r (Nat.le_trans hrlen hrestn)]
          _ = List.replicate (min k 2) '\n' ++ capNl r := by
              rw [show min (2 * (k / 3) + k % 3) 2 = min k 2 from by omega]
          _ = capNl (List.replicate k '\n' ++ r) := (capNl_rep k r hdr).symm
          _ = capNl ('\n' :: rest) := by rw [← hdec]
      · rw [replAll_cons_ne c rest hc, capNl_cons_ne c (replAll rest) hc, ih rest hrestn,
          ← capNl_cons_ne c rest hc]

theorem capNl_replAll (t : List Char) : capNl (replAll t) = capNl t :=
  capNl_replAll_aux t.length t (Nat.le_refl _)

theorem collapseAux_eq_capNl : ∀ (n : Nat) (t : List Char), t.length ≤ n →
    collapseAux n t = capNl t := by
  intro n
  induction n with
  | zero =>
    intro t ht
    rw [List.length_eq_zero.mp (Nat.le_zero.mp ht)]
    rfl
  | succ n ih =>
    intro t ht
    simp only [collapseAux]
    split
    · rename_i htr
      have hlt := hasTriple_replAll_len t htr
      rw [ih (replAll t) (by omega), capNl_replAll t]
    · rename_i htr
      exact (noTriple_capNl t (Bool.eq_false_iff.mpr htr)).symm

/-- The `format_response` blank-line loop, run to its fixpoint, computes
exactly the `capNl` normal form: every run of three or more newlines is
capped at two, everything else is untouched. -/
theorem collapseNl_eq_capNl (l : List Char) : collapseNl l = capNl l :=
  collapseAux_eq_capNl l.length l (Nat.le_refl _)

/-- Counterexample for C8 as stated: the input `"### A\n\n\nB"` has a run of
exactly two blank lines (three newlines) — no run of three or more blank
lines — yet `format_response` changes it, collapsing the run to one blank
line. -/
theorem claim_C8_cex :
    format_response "### A\n\n\nB" = "### A\n\nB" ∧
    format_response "### A\n\n\nB" ≠ "### A\n\n\nB" :=
  ⟨rfl, by decide⟩

/-- Claim C8 (amended): on input already carrying markdown markers (after
stripping), `format_response` returns the stripped input with every run of
three or more consecutive newlines — i.e. two or more blank lines —
collapsed to exactly two newlines (one blank line), and nothing else
changed: the result is the `capNl` normal form of the stripped input. -/
theorem claim_C8_thm (s : String) (hm : markersPresent (pyStrip s) = true) :
    format_response s = String.mk (capNl (stripChars s.data)) := by
  have hsne : s ≠ "" := by
    rintro rfl
    exact absurd hm (by decide)
  unfold format_response
  rw [if_neg hsne]
  dsimp only
  rw [if_pos hm]
  unfold collapseBlank
  rw [collapseNl_eq_capNl]
  rfl

/-- Witness for C8 (amended), at the example of the specification,
`"### Answer\n\nX\n\n\n\nY"`, whose blank-line run collapses to a single
blank line. -/
theorem claim_C8_wit :
    markersPresent (pyStrip "### Answer\n\nX\n\n\n\nY") = true ∧
    format_response "### Answer\n\nX\n\n\n\nY" =
      String.mk (capNl (stripChars "### Answer\n\nX\n\n\n\nY".data)) ∧
    String.mk (capNl (stripChars "### Answer\n\nX\n\n\n\nY".data)) = "### Answer\n\nX\n\nY" :=
  ⟨by decide, claim_C8_thm "### Answer\n\nX\n\n\n\nY" (by decide), rfl⟩
